import Mathlib

/-!
Shallow embedding of the pi-kiosk sensor/display controller
(src/pi_kiosk/sensors.py, src/pi_kiosk/display.py, src/pi_kiosk/main.py).

Machine floats are modelled as rationals; Python `int()` truncation toward
zero is `pyTrunc`.  Hardware and subprocess effects are modelled by explicit
oracle parameters (does the bus come up, does the device raise, what value
does it report, does the external command succeed), and each operation
reports how many external commands it issued and whether it touched the
device, so that "no I/O" claims are statable.
-/

namespace PiKiosk

/-- Python `int()` applied to a rational: truncation toward zero. -/
def pyTrunc (q : ℚ) : ℤ :=
  if q < 0 then ⌈q⌉ else ⌊q⌋

/-- The numeric configuration fields used by the core
(KioskConfig in src/pi_kiosk/config.py); defaults as in the source. -/
structure KioskConfig where
  distance_threshold_mm : ℚ := 1500
  inactivity_timeout_sec : ℚ := 90
  brightness_min : ℤ := 10
  brightness_max : ℤ := 255
  brightness_lux_max : ℚ := 400
  default_brightness : ℤ := 120
  enable_distance_sensor : Bool := true
  enable_light_sensor : Bool := true
deriving DecidableEq, Repr

/-- The §6 / pydantic validation bounds on a KioskConfig
(field constraints in src/pi_kiosk/config.py). -/
def ConfigValid (cfg : KioskConfig) : Prop :=
  100 ≤ cfg.distance_threshold_mm ∧ cfg.distance_threshold_mm ≤ 5000 ∧
  5 ≤ cfg.inactivity_timeout_sec ∧ cfg.inactivity_timeout_sec ≤ 3600 ∧
  0 ≤ cfg.brightness_min ∧ cfg.brightness_min ≤ 255 ∧
  1 ≤ cfg.brightness_max ∧ cfg.brightness_max ≤ 255 ∧
  cfg.brightness_min < cfg.brightness_max ∧
  0 < cfg.brightness_lux_max ∧
  0 ≤ cfg.default_brightness ∧ cfg.default_brightness ≤ 255

instance (cfg : KioskConfig) : Decidable (ConfigValid cfg) := by
  unfold ConfigValid; infer_instance

/-- The default configuration (every field at its source default). -/
def defaultConfig : KioskConfig := {}

/-! ### Screen / brightness controller (src/pi_kiosk/display.py) -/

/-- DisplayState dataclass: tracked screen power and last applied
brightness (`None` before any successful application). -/
structure DisplayState where
  screen_on : Bool
  brightness : Option ℤ
deriving DecidableEq, Repr

/-- ScreenController mutable state: the DisplayState plus the
warn-once flag for missing brightness backends. -/
structure ScreenState where
  display : DisplayState
  warned_brightness : Bool
deriving DecidableEq, Repr

/-- State of a freshly constructed ScreenController
(`DisplayState()` defaults: screen_on=True, brightness=None;
`self._warned_brightness = False`). -/
def initScreenState : ScreenState :=
  ⟨⟨true, none⟩, false⟩

/-- ScreenController.brightness_from_lux: absent lux yields the default
brightness; otherwise linear interpolation between the brightness bounds,
with the lux scale clamped at 1 and floored at ratio 1.0. -/
def brightness_from_lux (cfg : KioskConfig) (lux : Option ℚ) : ℤ :=
  match lux with
  | none => cfg.default_brightness
  | some l =>
    let frac : ℚ := min 1 (l / max 1 cfg.brightness_lux_max)
    let value : ℤ :=
      pyTrunc ((cfg.brightness_min : ℚ) +
        ((cfg.brightness_max : ℚ) - (cfg.brightness_min : ℚ)) * frac)
    max cfg.brightness_min (min cfg.brightness_max value)

/-- ScreenController.wake_screen: no-op when the tracked state is already
on; otherwise issues one display command (`xset dpms force on`) and flips
the tracked state regardless of the command's exit status `cmdOk`.
Returns the new state and the number of external commands issued. -/
def wake_screen (st : DisplayState) (_cmdOk : Bool) : DisplayState × ℕ :=
  if st.screen_on then (st, 0)
  else ({ st with screen_on := true }, 1)

/-- ScreenController.sleep_screen: no-op when the tracked state is already
off; otherwise issues one display command (`xset dpms force off`) and flips
the tracked state regardless of the command's exit status `cmdOk`. -/
def sleep_screen (st : DisplayState) (_cmdOk : Bool) : DisplayState × ℕ :=
  if st.screen_on then ({ st with screen_on := false }, 1)
  else (st, 0)

/-- Environment for set_brightness actuation: whether the brightnessctl
binary exists, whether its invocation succeeds, whether a backlight path is
configured, and whether the file write succeeds. -/
structure BrightnessEnv where
  ctlAvail : Bool
  ctlOk : Bool
  backlightConfigured : Bool
  backlightOk : Bool
deriving DecidableEq, Repr

/-- ScreenController._use_brightnessctl: returns (success, commands
issued).  No command is issued if the binary is absent. -/
def useBrightnessctl (env : BrightnessEnv) : Bool × ℕ :=
  if env.ctlAvail then (env.ctlOk, 1) else (false, 0)

/-- ScreenController._write_backlight_file: returns (success, write
attempts issued).  No write is attempted if no path is configured. -/
def writeBacklightFile (env : BrightnessEnv) : Bool × ℕ :=
  if env.backlightConfigured then (env.backlightOk, 1) else (false, 0)

/-- Clamp a target into the configured brightness bounds, as at the top of
ScreenController.set_brightness. -/
def clampBrightness (cfg : KioskConfig) (t : ℤ) : ℤ :=
  max cfg.brightness_min (min cfg.brightness_max t)

/-- Result of a set_brightness call: the new controller state, the number
of underlying actuation commands issued (brightnessctl invocations plus
backlight writes), and whether actuation was attempted at all (the early
idempotence return not taken). -/
structure SetBrightnessResult where
  screen : ScreenState
  cmds : ℕ
  attempted : Bool
deriving DecidableEq, Repr

/-- ScreenController.set_brightness: clamps the target, returns at once if
it equals the last applied brightness, otherwise tries brightnessctl then
the backlight file; the last applied brightness is updated only when one
backend reports success, and when both fail only the warn-once flag
changes. -/
def set_brightness (cfg : KioskConfig) (sc : ScreenState)
    (env : BrightnessEnv) (target : ℤ) : SetBrightnessResult :=
  let t := clampBrightness cfg target
  if sc.display.brightness = some t then ⟨sc, 0, false⟩
  else
    let r1 := useBrightnessctl env
    if r1.1 then
      ⟨{ sc with display := { sc.display with brightness := some t } }, r1.2, true⟩
    else
      let r2 := writeBacklightFile env
      if r2.1 then
        ⟨{ sc with display := { sc.display with brightness := some t } },
          r1.2 + r2.2, true⟩
      else
        ⟨{ sc with warned_brightness := true }, r1.2 + r2.2, true⟩

/-! ### Sensor state machines (src/pi_kiosk/sensors.py) -/

/-- Mutable state of _BaseSensor: enabled flag, whether a live handle is
held (`self._sensor is not None`), the failure counter and the earliest
next attempt time. -/
structure SensorState where
  enabled : Bool
  sensor : Bool
  fail_count : ℕ
  next_attempt : ℚ
deriving DecidableEq, Repr

/-- _BaseSensor.is_supported: a live handle is held. -/
def is_supported (s : SensorState) : Bool :=
  s.sensor

/-- _BaseSensor.disable: clears the enabled flag and the handle. -/
def disable (s : SensorState) : SensorState :=
  { s with enabled := false, sensor := false }

/-- _BaseSensor._backoff at time `now`: increments fail_count and schedules
the next attempt `min(2 ** fail_count, 60)` seconds from now, using the
post-increment fail_count. -/
def backoff (s : SensorState) (now : ℚ) : SensorState :=
  { s with fail_count := s.fail_count + 1,
           next_attempt := now + min ((2 : ℚ) ^ (s.fail_count + 1)) 60 }

/-- Result of an initialization attempt: the new sensor state and whether
per-sensor hardware initialization was actually attempted (the driver
constructor reached, as opposed to the early returns). -/
structure InitResult where
  state : SensorState
  hwInit : Bool
deriving DecidableEq, Repr

/-- DistanceSensor._attempt_init / LightSensor._attempt_init (identical
control flow): no-op when not enabled; immediate permanent disable when the
shared bus handle is absent (no hardware touched); otherwise the driver
constructor either succeeds (handle held, fail_count reset) or fails
(handle cleared, backoff scheduled). -/
def attemptInit (s : SensorState) (now : ℚ) (i2c initOk : Bool) : InitResult :=
  if s.enabled = false then ⟨s, false⟩
  else if i2c = false then ⟨disable s, false⟩
  else if initOk then ⟨{ s with sensor := true, fail_count := 0 }, true⟩
  else ⟨backoff { s with sensor := false } now, true⟩

/-- Behaviour of the distance capability on one read: either the access
raises, or it reports an optional data_ready attribute (none = attribute
absent) and an optional distance attribute (none = attribute absent, which
Python's `getattr(sensor, "distance", None)` yields). -/
inductive DistOutcome where
  | raises : DistOutcome
  | ok : Option Bool → Option ℚ → DistOutcome
deriving DecidableEq, Repr

/-- Behaviour of the light capability on one read: either the access
raises, or it reports an optional lux attribute. -/
inductive LuxOutcome where
  | raises : LuxOutcome
  | ok : Option ℚ → LuxOutcome
deriving DecidableEq, Repr

/-- Result of a read call: the returned value, the new sensor state,
whether per-sensor hardware initialization was attempted during the call,
and whether the device itself was touched (the try block entered with a
live handle). -/
structure DistReadResult where
  result : Option ℚ
  state : SensorState
  hwInit : Bool
  devTouched : Bool
deriving DecidableEq, Repr

/-- DistanceSensor.read at time `now`, with bus presence `i2c`, init
outcome oracle `initOk` and device outcome `out`.  Mirrors `_ready`
(enabled check, backoff check, lazy init) followed by the guarded read:
data_ready false is a neutral early return, an absent or non-positive
distance is a neutral early return, a raising access clears the handle and
schedules backoff, and a valid distance resets fail_count. -/
def distRead (s : SensorState) (now : ℚ) (i2c initOk : Bool)
    (out : DistOutcome) : DistReadResult :=
  if s.enabled = false then ⟨none, s, false, false⟩
  else if now < s.next_attempt then ⟨none, s, false, false⟩
  else
    let ir : InitResult :=
      if s.sensor then ⟨s, false⟩ else attemptInit s now i2c initOk
    if ir.state.sensor = false then ⟨none, ir.state, ir.hwInit, false⟩
    else
      match out with
      | .raises =>
          ⟨none, backoff { ir.state with sensor := false } now, ir.hwInit, true⟩
      | .ok dataReady dist =>
          if dataReady = some false then ⟨none, ir.state, ir.hwInit, true⟩
          else
            match dist with
            | none => ⟨none, ir.state, ir.hwInit, true⟩
            | some d =>
                if d ≤ 0 then ⟨none, ir.state, ir.hwInit, true⟩
                else ⟨some d, { ir.state with fail_count := 0 }, ir.hwInit, true⟩

/-- LightSensor.read at time `now`: same `_ready` preamble; an absent lux
attribute is a neutral early return, a raising access clears the handle and
schedules backoff, and a present lux value resets fail_count. -/
def lightRead (s : SensorState) (now : ℚ) (i2c initOk : Bool)
    (out : LuxOutcome) : DistReadResult :=
  if s.enabled = false then ⟨none, s, false, false⟩
  else if now < s.next_attempt then ⟨none, s, false, false⟩
  else
    let ir : InitResult :=
      if s.sensor then ⟨s, false⟩ else attemptInit s now i2c initOk
    if ir.state.sensor = false then ⟨none, ir.state, ir.hwInit, false⟩
    else
      match out with
      | .raises =>
          ⟨none, backoff { ir.state with sensor := false } now, ir.hwInit, true⟩
      | .ok lux =>
          match lux with
          | none => ⟨none, ir.state, ir.hwInit, true⟩
          | some l => ⟨some l, { ir.state with fail_count := 0 }, ir.hwInit, true⟩

/-- Sensor construction (DistanceSensor.__init__ / LightSensor.__init__):
fresh state with the configured enabled flag, no handle, fail_count 0 and
next_attempt 0.0; _attempt_init is invoked at once when enabled. -/
def mkSensor (enabled i2c initOk : Bool) (now : ℚ) : InitResult :=
  let s : SensorState := ⟨enabled, false, 0, 0⟩
  if enabled then attemptInit s now i2c initOk else ⟨s, false⟩

/-- Result of SensorSuite construction: the bus handle flag, both sensor
states, and whether either sensor attempted hardware initialization. -/
structure SuiteInit where
  i2c : Bool
  distance : SensorState
  light : SensorState
  distHwInit : Bool
  lightHwInit : Bool
deriving DecidableEq, Repr

/-- SensorSuite.__init__: the bus is acquired only if at least one sensor
is configured enabled (`_init_i2c_bus`), with `busOk` telling whether the
acquisition attempt succeeds; then both sensors are constructed against the
resulting bus handle. -/
def mkSensorSuite (cfg : KioskConfig) (busOk distInitOk lightInitOk : Bool)
    (now : ℚ) : SuiteInit :=
  let i2c :=
    if cfg.enable_distance_sensor || cfg.enable_light_sensor then busOk
    else false
  let d := mkSensor cfg.enable_distance_sensor i2c distInitOk now
  let l := mkSensor cfg.enable_light_sensor i2c lightInitOk now
  ⟨i2c, d.state, l.state, d.hwInit, l.hwInit⟩

/-- A sensor in the terminal Disabled state: enabled flag cleared and no
handle held (the state produced by `disable`). -/
def SensorDisabledState (s : SensorState) : Prop :=
  s.enabled = false ∧ s.sensor = false

instance (s : SensorState) : Decidable (SensorDisabledState s) := by
  unfold SensorDisabledState; infer_instance

/-- The operations that can touch a sensor's state during the process
lifetime. -/
inductive SensorOp where
  | readDist : ℚ → Bool → Bool → DistOutcome → SensorOp
  | readLight : ℚ → Bool → Bool → LuxOutcome → SensorOp
  | tryInit : ℚ → Bool → Bool → SensorOp
  | doBackoff : ℚ → SensorOp
  | doDisable : SensorOp
deriving DecidableEq, Repr

/-- State transition of one sensor operation. -/
def applyOp (s : SensorState) : SensorOp → SensorState
  | .readDist now i2c initOk out => (distRead s now i2c initOk out).state
  | .readLight now i2c initOk out => (lightRead s now i2c initOk out).state
  | .tryInit now i2c initOk => (attemptInit s now i2c initOk).state
  | .doBackoff now => backoff s now
  | .doDisable => disable s

/-- State after a sequence of sensor operations. -/
def applyOps (s : SensorState) (ops : List SensorOp) : SensorState :=
  ops.foldl applyOp s

/-! ### Control loop tick (src/pi_kiosk/main.py, run) -/

/-- Per-tick inputs to the control loop: the suite's readings, the current
time, and whether the distance sensor currently holds a live handle. -/
structure TickInput where
  distance_mm : Option ℚ
  ambient_lux : Option ℚ
  now : ℚ
  distance_supported : Bool
deriving DecidableEq, Repr

/-- Per-tick decisions of the control loop body: the updated
last_motion_ts and whether wake_screen / sleep_screen were invoked. -/
structure TickResult where
  last_motion : ℚ
  wakeInvoked : Bool
  sleepInvoked : Bool
deriving DecidableEq, Repr

/-- One iteration of the wake/sleep logic in `run`: a valid distance
reading at or below the threshold refreshes last_motion_ts and invokes
wake_screen; then — as a separate if, not an else branch — sleep_screen is
invoked when the distance sensor is configured enabled and currently
supported and the inactivity timeout has elapsed. -/
def loopTick (cfg : KioskConfig) (last_motion : ℚ) (inp : TickInput) :
    TickResult :=
  let capable := cfg.enable_distance_sensor && inp.distance_supported
  let step2 : ℚ × Bool :=
    match inp.distance_mm with
    | none => (last_motion, false)
    | some d =>
        if d ≤ cfg.distance_threshold_mm then (inp.now, true)
        else (last_motion, false)
  let sleepNow := capable && decide (cfg.inactivity_timeout_sec < inp.now - step2.1)
  ⟨step2.1, step2.2, sleepNow⟩

/-! ### Helper lemmas -/

theorem pyTrunc_intCast (n : ℤ) : pyTrunc (n : ℚ) = n := by
  unfold pyTrunc
  split_ifs with h
  · exact Int.ceil_intCast n
  · exact Int.floor_intCast n

theorem pyTrunc_mono {x y : ℚ} (h : x ≤ y) : pyTrunc x ≤ pyTrunc y := by
  unfold pyTrunc
  by_cases hx : x < 0 <;> by_cases hy : y < 0 <;> simp only [hx, hy, if_true, if_false]
  · exact Int.ceil_mono h
  · have h1 : ⌈x⌉ ≤ 0 := Int.ceil_le.mpr (by exact_mod_cast hx.le)
    have h2 : 0 ≤ ⌊y⌋ := Int.floor_nonneg.mpr (not_lt.mp hy)
    omega
  · exact absurd (h.trans_lt hy) hx
  · exact Int.floor_mono h

/-! ### Claim theorems -/

/-- C4: _backoff increments fail_count by exactly 1 and sets
next_attempt_time to now + min(2^fail_count, 60) using the post-increment
fail_count, computed fresh from the current time; the delay never exceeds
60 seconds for any fail_count. -/
theorem backoff_schedule (s : SensorState) (now : ℚ) :
    backoff s now =
      { s with fail_count := s.fail_count + 1,
               next_attempt := now + min ((2 : ℚ) ^ (s.fail_count + 1)) 60 } ∧
    min ((2 : ℚ) ^ (s.fail_count + 1)) 60 ≤ 60 :=
  ⟨rfl, min_le_right _ _⟩

/-- C9: a freshly constructed ScreenController tracks screen_on = true and
no last-applied brightness; its first wake_screen issues no display
command and leaves the state unchanged, while its first sleep_screen
issues exactly one command. -/
theorem init_screen_state_fresh (cmdOk : Bool) :
    initScreenState.display.screen_on = true ∧
    initScreenState.display.brightness = none ∧
    wake_screen initScreenState.display cmdOk = (initScreenState.display, 0) ∧
    (sleep_screen initScreenState.display cmdOk).2 = 1 :=
  ⟨rfl, rfl, rfl, rfl⟩

/-- C8: wake_screen and sleep_screen are no-ops (no command, state
unchanged) when the tracked screen_on already matches the requested state;
otherwise each issues exactly one display command and flips the tracked
state regardless of the command's exit status; two consecutive calls
requesting the same state issue at most one command. -/
theorem wake_sleep_idempotent (st : DisplayState) (ok ok2 : Bool) :
    (st.screen_on = true → wake_screen st ok = (st, 0)) ∧
    (st.screen_on = false → sleep_screen st ok = (st, 0)) ∧
    (st.screen_on = false →
      wake_screen st ok = ({ st with screen_on := true }, 1)) ∧
    (st.screen_on = true →
      sleep_screen st ok = ({ st with screen_on := false }, 1)) ∧
    wake_screen st ok = wake_screen st ok2 ∧
    sleep_screen st ok = sleep_screen st ok2 ∧
    (wake_screen st ok).2 + (wake_screen (wake_screen st ok).1 ok2).2 ≤ 1 ∧
    (sleep_screen st ok).2 + (sleep_screen (sleep_screen st ok).1 ok2).2 ≤ 1 := by
  obtain ⟨sOn, b⟩ := st
  cases sOn <;> simp [wake_screen, sleep_screen]

/-- Witness for C8 at a concrete state: the screen is on, so wake_screen
is a no-op and sleep_screen issues exactly one command. -/
theorem wake_sleep_idempotent_witness :
    wake_screen ⟨true, none⟩ true = (⟨true, none⟩, 0) ∧
    sleep_screen ⟨true, none⟩ true = (⟨false, none⟩, 1) :=
  ⟨(wake_sleep_idempotent ⟨true, none⟩ true false).1 rfl,
   (wake_sleep_idempotent ⟨true, none⟩ true false).2.2.2.1 rfl⟩

/-- C5: while now < next_attempt_time, read() short-circuits for both
sensors: it returns None, performs no device I/O and no initialization
attempt, and leaves the whole sensor state unchanged. -/
theorem read_backoff_short_circuit (s : SensorState) (now : ℚ)
    (i2c initOk : Bool) (h : now < s.next_attempt) :
    (∀ out : DistOutcome,
      distRead s now i2c initOk out = ⟨none, s, false, false⟩) ∧
    (∀ out : LuxOutcome,
      lightRead s now i2c initOk out = ⟨none, s, false, false⟩) := by
  refine ⟨fun out => ?_, fun out => ?_⟩
  · unfold distRead
    by_cases he : s.enabled = false <;> simp [he, h]
  · unfold lightRead
    by_cases he : s.enabled = false <;> simp [he, h]

/-- Witness for C5: a concrete Ready sensor with next_attempt 10 read at
time 5 returns None with no state change and no I/O. -/
theorem read_backoff_short_circuit_witness :
    (5 : ℚ) < 10 ∧
    distRead ⟨true, true, 2, 10⟩ 5 true true (.ok none (some 800)) =
      ⟨none, ⟨true, true, 2, 10⟩, false, false⟩ :=
  ⟨by norm_num,
   (read_backoff_short_circuit ⟨true, true, 2, 10⟩ 5 true true
      (by norm_num)).1 (.ok none (some 800))⟩

/-- C10: a Ready distance sensor whose capability reports data_ready as
false returns None from read() with the entire sensor state unchanged
(handle retained, fail_count neither reset nor incremented, no backoff
scheduled), though the device was consulted. -/
theorem dist_read_data_ready_neutral (s : SensorState) (now : ℚ)
    (i2c initOk : Bool) (dist : Option ℚ)
    (hen : s.enabled = true) (hs : s.sensor = true)
    (ht : ¬ now < s.next_attempt) :
    distRead s now i2c initOk (.ok (some false) dist) = ⟨none, s, false, true⟩ := by
  unfold distRead
  simp [hen, hs, ht]

/-- Witness for C10: concrete Ready sensor, data_ready false, read at time
5; the result is None with the state exactly as before. -/
theorem dist_read_data_ready_neutral_witness :
    distRead ⟨true, true, 3, 4⟩ 5 true true (.ok (some false) (some 800)) =
      ⟨none, ⟨true, true, 3, 4⟩, false, true⟩ :=
  dist_read_data_ready_neutral ⟨true, true, 3, 4⟩ 5 true true (some 800)
    rfl rfl (by norm_num)

/-- C1 counterexample: for a concrete Ready distance sensor (enabled,
handle held, fail_count 0, next_attempt 0) read at time 5, a reported
distance of 0 (not strictly positive) makes read() return None with the
sensor state completely unchanged — the handle is NOT cleared, fail_count
is NOT incremented and no backoff is scheduled; likewise an absent lux
value on the light sensor.  This refutes the claim that a semantically
invalid value is treated exactly like an I/O failure. -/
theorem invalid_value_counterexample :
    (distRead ⟨true, true, 0, 0⟩ 5 true true (.ok none (some 0))).result = none ∧
    (distRead ⟨true, true, 0, 0⟩ 5 true true (.ok none (some 0))).state =
      ⟨true, true, 0, 0⟩ ∧
    (lightRead ⟨true, true, 0, 0⟩ 5 true true (.ok none)).result = none ∧
    (lightRead ⟨true, true, 0, 0⟩ 5 true true (.ok none)).state =
      ⟨true, true, 0, 0⟩ ∧
    (distRead ⟨true, true, 0, 0⟩ 5 true true (.ok none (some 0))).state.sensor = true ∧
    (distRead ⟨true, true, 0, 0⟩ 5 true true (.ok none (some 0))).state.fail_count = 0 ∧
    (distRead ⟨true, true, 0, 0⟩ 5 true true (.ok none (some 0))).state.next_attempt = 0 := by
  refine ⟨?_, ?_, ?_, ?_, ?_, ?_, ?_⟩ <;> rfl

/-- C1 amended: for a Ready sensor, a semantically invalid value (a
distance that is absent or not strictly positive, or an absent lux value)
makes read() return None while leaving the sensor state entirely unchanged
— the handle is retained, fail_count is neither reset nor incremented, and
no backoff is scheduled; only an exception from the capability produces
the failure transition (handle cleared, fail_count incremented, backoff
scheduled, None returned). -/
theorem invalid_value_neutral (s : SensorState) (now : ℚ) (i2c initOk : Bool)
    (hen : s.enabled = true) (hs : s.sensor = true)
    (ht : ¬ now < s.next_attempt) :
    (∀ dr : Option Bool, ∀ d : ℚ, dr ≠ some false → d ≤ 0 →
      distRead s now i2c initOk (.ok dr (some d)) = ⟨none, s, false, true⟩) ∧
    (∀ dr : Option Bool, dr ≠ some false →
      distRead s now i2c initOk (.ok dr none) = ⟨none, s, false, true⟩) ∧
    lightRead s now i2c initOk (.ok none) = ⟨none, s, false, true⟩ ∧
    distRead s now i2c initOk .raises =
      ⟨none, backoff { s with sensor := false } now, false, true⟩ ∧
    lightRead s now i2c initOk .raises =
      ⟨none, backoff { s with sensor := false } now, false, true⟩ := by
  refine ⟨fun dr d hdr hd => ?_, fun dr hdr => ?_, ?_, ?_, ?_⟩
  · unfold distRead; simp [hen, hs, ht, hdr, hd]
  · unfold distRead; simp [hen, hs, ht, hdr]
  · unfold lightRead; simp [hen, hs, ht]
  · unfold distRead; simp [hen, hs, ht]
  · unfold lightRead; simp [hen, hs, ht]

/-- Witness for the amended C1 at a concrete Ready sensor: distance 0 and
absent lux are neutral; a raising access schedules backoff. -/
theorem invalid_value_neutral_witness :
    distRead ⟨true, true, 0, 0⟩ 5 true true (.ok none (some 0)) =
      ⟨none, ⟨true, true, 0, 0⟩, false, true⟩ ∧
    lightRead ⟨true, true, 0, 0⟩ 5 true true (.ok none) =
      ⟨none, ⟨true, true, 0, 0⟩, false, true⟩ ∧
    distRead ⟨true, true, 0, 0⟩ 5 true true .raises =
      ⟨none, ⟨true, false, 1, 7⟩, false, true⟩ := by
  have h := invalid_value_neutral ⟨true, true, 0, 0⟩ 5 true true rfl rfl (by norm_num)
  refine ⟨h.1 none 0 (by simp) le_rfl, h.2.2.1, ?_⟩
  have h4 := h.2.2.2.1
  rw [h4]
  have : backoff ⟨true, false, 0, 0⟩ 5 = ⟨true, false, 1, 7⟩ := by
    unfold backoff
    norm_num
  rw [this]

/-- C6: if shared-bus acquisition fails while at least one sensor is
configured enabled, every bus-dependent sensor is immediately and
permanently disabled with no per-sensor hardware initialization attempted;
the Disabled state is terminal under every sensor operation, and in it
supported() is false, reads return None, and no init or device I/O is ever
attempted again. -/
theorem bus_failure_permanent_disable (cfg : KioskConfig)
    (distInitOk lightInitOk : Bool) (now : ℚ)
    (hen : cfg.enable_distance_sensor = true ∨ cfg.enable_light_sensor = true) :
    (SensorDisabledState (mkSensorSuite cfg false distInitOk lightInitOk now).distance ∧
     SensorDisabledState (mkSensorSuite cfg false distInitOk lightInitOk now).light ∧
     (mkSensorSuite cfg false distInitOk lightInitOk now).distHwInit = false ∧
     (mkSensorSuite cfg false distInitOk lightInitOk now).lightHwInit = false) ∧
    (∀ (s : SensorState) (ops : List SensorOp),
      SensorDisabledState s → SensorDisabledState (applyOps s ops)) ∧
    (∀ s : SensorState, SensorDisabledState s →
      is_supported s = false ∧
      (∀ (now2 : ℚ) (i2c initOk : Bool) (out : DistOutcome),
        distRead s now2 i2c initOk out = ⟨none, s, false, false⟩) ∧
      (∀ (now2 : ℚ) (i2c initOk : Bool) (out : LuxOutcome),
        lightRead s now2 i2c initOk out = ⟨none, s, false, false⟩) ∧
      (∀ (now2 : ℚ) (i2c initOk : Bool),
        attemptInit s now2 i2c initOk = ⟨s, false⟩)) := by
  have hdisRead : ∀ (s : SensorState), SensorDisabledState s →
      (∀ (now2 : ℚ) (i2c initOk : Bool) (out : DistOutcome),
        distRead s now2 i2c initOk out = ⟨none, s, false, false⟩) := by
    intro s hs now2 i2c initOk out
    unfold distRead
    simp [hs.1]
  have hdisLight : ∀ (s : SensorState), SensorDisabledState s →
      (∀ (now2 : ℚ) (i2c initOk : Bool) (out : LuxOutcome),
        lightRead s now2 i2c initOk out = ⟨none, s, false, false⟩) := by
    intro s hs now2 i2c initOk out
    unfold lightRead
    simp [hs.1]
  have hdisInit : ∀ (s : SensorState), SensorDisabledState s →
      (∀ (now2 : ℚ) (i2c initOk : Bool),
        attemptInit s now2 i2c initOk = ⟨s, false⟩) := by
    intro s hs now2 i2c initOk
    unfold attemptInit
    simp [hs.1]
  have hstep : ∀ (op : SensorOp) (s : SensorState),
      SensorDisabledState s → SensorDisabledState (applyOp s op) := by
    intro op s hs
    cases op with
    | readDist now2 i2c initOk out => simp [applyOp, hdisRead s hs, hs]
    | readLight now2 i2c initOk out => simp [applyOp, hdisLight s hs, hs]
    | tryInit now2 i2c initOk => simp [applyOp, hdisInit s hs, hs]
    | doBackoff now2 => exact ⟨hs.1, hs.2⟩
    | doDisable => exact ⟨rfl, rfl⟩
  refine ⟨?_, ?_, fun s hs => ⟨hs.2, hdisRead s hs, hdisLight s hs, hdisInit s hs⟩⟩
  · unfold mkSensorSuite mkSensor
    rcases hen with h | h <;>
      · simp only [h, Bool.true_or, Bool.or_true]
        constructor
        · cases hd : cfg.enable_distance_sensor <;>
            simp [hd, attemptInit, disable, SensorDisabledState]
        constructor
        · cases hl : cfg.enable_light_sensor <;>
            simp [hl, attemptInit, disable, SensorDisabledState]
        constructor
        · cases hd : cfg.enable_distance_sensor <;> simp [hd, attemptInit, disable]
        · cases hl : cfg.enable_light_sensor <;> simp [hl, attemptInit, disable]
  · intro s ops hs
    induction ops generalizing s with
    | nil => exact hs
    | cons op rest ih =>
        have : applyOps s (op :: rest) = applyOps (applyOp s op) rest := rfl
        rw [this]
        exact ih _ (hstep op s hs)

/-- Witness for C6: with the default config (both sensors enabled) and a
failed bus, the suite's distance sensor is disabled with no hardware init,
and stays disabled (with reads returning None) across a sequence of
operations. -/
theorem bus_failure_permanent_disable_witness :
    SensorDisabledState (mkSensorSuite defaultConfig false true true 0).distance ∧
    SensorDisabledState
      (applyOps (mkSensorSuite defaultConfig false true true 0).distance
        [.readDist 1 true true (.ok none (some 800)), .tryInit 2 true true,
         .readLight 3 true true (.ok (some 5))]) ∧
    distRead (mkSensorSuite defaultConfig false true true 0).distance 1 true true
      (.ok none (some 800)) =
      ⟨none, (mkSensorSuite defaultConfig false true true 0).distance, false, false⟩ := by
  have h := bus_failure_permanent_disable defaultConfig true true 0 (Or.inl rfl)
  exact ⟨h.1.1,
    h.2.1 _ [.readDist 1 true true (.ok none (some 800)), .tryInit 2 true true,
      .readLight 3 true true (.ok (some 5))] h.1.1,
    (h.2.2 _ h.1.1).2.1 1 true true (.ok none (some 800))⟩

/-- C7: on every control-loop tick, sleep_screen is invoked exactly when
the distance sensor is configured enabled and currently supported and the
time since the (possibly just refreshed) last_motion_ts exceeds the
inactivity timeout; the sleep check is evaluated on every tick,
independently of the wake branch, so an unsupported distance sensor means
sleep_screen is never invoked regardless of elapsed time. -/
theorem tick_sleep_only_when_capable (cfg : KioskConfig) (lm : ℚ)
    (inp : TickInput) :
    ((loopTick cfg lm inp).sleepInvoked = true ↔
      cfg.enable_distance_sensor = true ∧ inp.distance_supported = true ∧
      cfg.inactivity_timeout_sec < inp.now - (loopTick cfg lm inp).last_motion) ∧
    (inp.distance_supported = false →
      (loopTick cfg lm inp).sleepInvoked = false) := by
  constructor
  · unfold loopTick
    cases hd : cfg.enable_distance_sensor <;>
      cases hsup : inp.distance_supported <;> simp [hd, hsup]
  · intro hsup
    unfold loopTick
    simp [hsup]

/-- Witness for C7: with the default config, an unsupported distance
sensor and 1000 seconds of inactivity, the tick does not invoke
sleep_screen. -/
theorem tick_sleep_only_when_capable_witness :
    (loopTick defaultConfig 0 ⟨none, none, 1000, false⟩).sleepInvoked = false :=
  (tick_sleep_only_when_capable defaultConfig 0 ⟨none, none, 1000, false⟩).2 rfl

/-- Unfolding of brightness_from_lux on a present lux value. -/
theorem brightness_from_lux_some (cfg : KioskConfig) (l : ℚ) :
    brightness_from_lux cfg (some l) =
      max cfg.brightness_min (min cfg.brightness_max
        (pyTrunc ((cfg.brightness_min : ℚ) +
          ((cfg.brightness_max : ℚ) - (cfg.brightness_min : ℚ)) *
            min 1 (l / max 1 cfg.brightness_lux_max)))) := rfl

/-- A configuration with brightness_lux_max = 1/2, valid for the §6
bounds (which require only brightness_lux_max > 0); all other fields at
their defaults. -/
def cexConfig : KioskConfig := { brightness_lux_max := 1/2 }

/-- C3 counterexample: cexConfig satisfies the §6 bounds, yet
brightness_from_lux at lux = brightness_lux_max = 1/2 yields 132, not
brightness_max = 255: the lux scale divisor is max(1, lux_max), so for
lux_max < 1 the claimed endpoint identity fails. -/
theorem brightness_luxmax_counterexample :
    ConfigValid cexConfig ∧
    brightness_from_lux cexConfig (some cexConfig.brightness_lux_max) = 132 ∧
    cexConfig.brightness_max = 255 ∧
    brightness_from_lux cexConfig (some cexConfig.brightness_lux_max) ≠
      cexConfig.brightness_max := by
  have hval : brightness_from_lux cexConfig (some cexConfig.brightness_lux_max) = 132 := by
    rw [brightness_from_lux_some]
    have h0 : cexConfig.brightness_min = 10 := rfl
    have h1 : cexConfig.brightness_max = 255 := rfl
    have h2 : cexConfig.brightness_lux_max = 1/2 := rfl
    rw [h0, h1, h2]
    have h3 : max (1:ℚ) (1/2) = 1 := by norm_num
    rw [h3, div_one]
    have h4 : min (1:ℚ) (1/2) = 1/2 := by norm_num
    rw [h4]
    have h5 : ((10:ℤ):ℚ) + (((255:ℤ):ℚ) - ((10:ℤ):ℚ)) * (1/2) = 265/2 := by
      norm_num
    rw [h5]
    have h6 : pyTrunc (265/2) = 132 := by
      unfold pyTrunc
      rw [if_neg (by norm_num)]
      rw [Int.floor_eq_iff]
      constructor <;> norm_num
    rw [h6]
    decide
  refine ⟨?_, hval, rfl, ?_⟩
  · unfold ConfigValid cexConfig
    norm_num
  · rw [hval]
    decide

/-- C3 amended: for every configuration within the §6 bounds,
brightness_from_lux(None) is the default brightness, brightness_from_lux(0)
is brightness_min, and the function is monotone non-decreasing in lux;
provided additionally brightness_lux_max ≥ 1 (true of the default 400),
brightness_from_lux(lux_max) is brightness_max and the function saturates
at brightness_max for every lux ≥ lux_max.  (For lux_max < 1 the divisor
is clamped to 1 and the endpoint identity fails, as the counterexample
shows.) -/
theorem brightness_from_lux_contract (cfg : KioskConfig) (h : ConfigValid cfg) :
    brightness_from_lux cfg none = cfg.default_brightness ∧
    brightness_from_lux cfg (some 0) = cfg.brightness_min ∧
    (∀ x y : ℚ, x ≤ y →
      brightness_from_lux cfg (some x) ≤ brightness_from_lux cfg (some y)) ∧
    (1 ≤ cfg.brightness_lux_max →
      ∀ l : ℚ, cfg.brightness_lux_max ≤ l →
        brightness_from_lux cfg (some l) = cfg.brightness_max) := by
  obtain ⟨-, -, -, -, h5, -, -, -, h9, h10, -, -⟩ := h
  have hminmax : cfg.brightness_min ≤ cfg.brightness_max := h9.le
  refine ⟨rfl, ?_, ?_, ?_⟩
  · rw [brightness_from_lux_some, zero_div, min_eq_right zero_le_one,
      mul_zero, add_zero, pyTrunc_intCast, min_eq_right hminmax, max_self]
  · intro x y hxy
    rw [brightness_from_lux_some, brightness_from_lux_some]
    have hM : (0:ℚ) < max 1 cfg.brightness_lux_max :=
      lt_of_lt_of_le one_pos (le_max_left _ _)
    have hc : (0:ℚ) ≤ (cfg.brightness_max : ℚ) - (cfg.brightness_min : ℚ) :=
      sub_nonneg.mpr (by exact_mod_cast hminmax)
    have hfrac : min 1 (x / max 1 cfg.brightness_lux_max) ≤
        min 1 (y / max 1 cfg.brightness_lux_max) :=
      min_le_min le_rfl (by gcongr)
    have hval : pyTrunc ((cfg.brightness_min : ℚ) +
        ((cfg.brightness_max : ℚ) - (cfg.brightness_min : ℚ)) *
          min 1 (x / max 1 cfg.brightness_lux_max)) ≤
        pyTrunc ((cfg.brightness_min : ℚ) +
        ((cfg.brightness_max : ℚ) - (cfg.brightness_min : ℚ)) *
          min 1 (y / max 1 cfg.brightness_lux_max)) :=
      pyTrunc_mono (add_le_add_left (mul_le_mul_of_nonneg_left hfrac hc) _)
    exact max_le_max (le_refl _) (min_le_min (le_refl _) hval)
  · intro h1 l hl
    have hpos : (0:ℚ) < cfg.brightness_lux_max := lt_of_lt_of_le one_pos h1
    have hMeq : max 1 cfg.brightness_lux_max = cfg.brightness_lux_max :=
      max_eq_right h1
    have hquot : (1:ℚ) ≤ l / cfg.brightness_lux_max :=
      (one_le_div hpos).mpr hl
    rw [brightness_from_lux_some, hMeq, min_eq_left hquot, mul_one]
    have hsum : (cfg.brightness_min : ℚ) +
        ((cfg.brightness_max : ℚ) - (cfg.brightness_min : ℚ)) =
        (cfg.brightness_max : ℚ) := by ring
    rw [hsum, pyTrunc_intCast, min_self, max_eq_right hminmax]

/-- Witness for the amended C3 at the default configuration: default
brightness for absent lux, brightness_min at lux 0, brightness_max at the
lux_max endpoint 400, and monotonicity at 100 ≤ 200. -/
theorem brightness_from_lux_contract_witness :
    ConfigValid defaultConfig ∧
    brightness_from_lux defaultConfig none = 120 ∧
    brightness_from_lux defaultConfig (some 0) = 10 ∧
    brightness_from_lux defaultConfig (some 400) = 255 ∧
    brightness_from_lux defaultConfig (some 100) ≤
      brightness_from_lux defaultConfig (some 200) := by
  have hv : ConfigValid defaultConfig := by
    unfold ConfigValid defaultConfig
    norm_num
  have h := brightness_from_lux_contract defaultConfig hv
  exact ⟨hv, h.1, h.2.1,
    h.2.2.2 (by norm_num [defaultConfig]) 400 (by norm_num [defaultConfig]),
    h.2.2.1 100 200 (by norm_num)⟩

/-- C2: set_brightness attempts actuation exactly when the clamped target
differs from the last successfully applied brightness (and is a no-op
otherwise); when the first available backend succeeds, calling it twice
with the same value issues exactly one underlying command in total; and
when every configured backend fails the last-applied brightness is left
unchanged, so a later call with the same target attempts actuation again
rather than being skipped. -/
theorem set_brightness_idempotent (cfg : KioskConfig) (sc : ScreenState)
    (env : BrightnessEnv) (target : ℤ) :
    ((set_brightness cfg sc env target).attempted = true ↔
      sc.display.brightness ≠ some (clampBrightness cfg target)) ∧
    (sc.display.brightness = some (clampBrightness cfg target) →
      set_brightness cfg sc env target = ⟨sc, 0, false⟩) ∧
    (sc.display.brightness ≠ some (clampBrightness cfg target) →
      (env.ctlAvail = true ∧ env.ctlOk = true ∨
        env.ctlAvail = false ∧ env.backlightConfigured = true ∧
          env.backlightOk = true) →
      (set_brightness cfg sc env target).cmds = 1 ∧
      (set_brightness cfg (set_brightness cfg sc env target).screen
        env target).cmds = 0) ∧
    ((env.ctlAvail = true → env.ctlOk = false) →
      (env.backlightConfigured = true → env.backlightOk = false) →
      (set_brightness cfg sc env target).screen.display.brightness =
        sc.display.brightness ∧
      (sc.display.brightness ≠ some (clampBrightness cfg target) →
        (set_brightness cfg (set_brightness cfg sc env target).screen
          env target).attempted = true)) := by
  rcases env with ⟨ca, co, bc, bo⟩
  by_cases hb : sc.display.brightness = some (clampBrightness cfg target) <;>
    cases ca <;> cases co <;> cases bc <;> cases bo <;>
      simp [set_brightness, useBrightnessctl, writeBacklightFile, hb]

/-- Witness for C2: fresh controller (no applied brightness), a working
brightnessctl backend, target 120 under the default config; the first call
issues exactly one command and the repeated call issues none; with both
backends failing, the applied brightness stays none and the repeat attempt
actuates again. -/
theorem set_brightness_idempotent_witness :
    ((set_brightness defaultConfig initScreenState ⟨true, true, false, false⟩
        120).cmds = 1 ∧
      (set_brightness defaultConfig
        (set_brightness defaultConfig initScreenState ⟨true, true, false, false⟩
          120).screen ⟨true, true, false, false⟩ 120).cmds = 0) ∧
    ((set_brightness defaultConfig initScreenState ⟨true, false, false, false⟩
        120).screen.display.brightness = none ∧
      (set_brightness defaultConfig
        (set_brightness defaultConfig initScreenState ⟨true, false, false, false⟩
          120).screen ⟨true, false, false, false⟩ 120).attempted = true) := by
  constructor
  · exact (set_brightness_idempotent defaultConfig initScreenState
      ⟨true, true, false, false⟩ 120).2.2.1 (by decide) (Or.inl ⟨rfl, rfl⟩)
  · have h := (set_brightness_idempotent defaultConfig initScreenState
      ⟨true, false, false, false⟩ 120).2.2.2 (fun _ => rfl) (by decide)
    exact ⟨h.1, h.2 (by decide)⟩

end PiKiosk
